import Mathlib

/-!
Shallow embedding of `src/scripts/upload-to-microcms.js` (a command-line
utility that recursively scans a directory for PNG files and uploads each to
the microCMS media API), together with theorems settling the specification
claims about it.

Modelling conventions:
* The filesystem is an inductive tree of named entries.  A directory carries a
  `readable` flag: `fs.readdir` succeeds and yields the listing when the flag
  is true and throws (the error the source catches at line 83) when it is
  false.
* JS strings are Lean `String`s; byte buffers are `List Nat` with each
  element < 256.  Node's `'binary'` (latin1) codec decodes byte `b` to the
  character with code point `b` and encodes a character `c` to the byte
  `c.toNat % 256`.
* The HTTP layer is an oracle `respond : UploadRequest → HttpResponse` passed
  to the upload client; `response.json().url` is modelled by the response's
  `jsonUrl : Except String String` field (error = the exception a failed JSON
  parse would raise, ok = the `url` field of the parsed body).
* `process.exit` codes are the `Nat` results of the entry-point model.
-/

deriving instance DecidableEq for Except

namespace Upload

/-- A node of the directory tree: a regular file with a name, or a directory
with a name, a readability flag and its listing. -/
inductive Entry : Type where
  | file (name : String)
  | dir (name : String) (readable : Bool) (entries : List Entry)

/-- Models `path.join(currentPath, entry.name)` (line 75) for the paths this
script builds. -/
def pathJoin (a b : String) : String := a ++ "/" ++ b

/-- ASCII lowercasing of one character, the case relevant to extension
comparison (`String.prototype.toLowerCase` agrees with this on ASCII). -/
def lowerChar (c : Char) : Char :=
  if 'A' ≤ c ∧ c ≤ 'Z' then Char.ofNat (c.toNat + 32) else c

/-- Models `s.toLowerCase()` characterwise. -/
def toLowerStr (s : String) : String := ⟨s.data.map lowerChar⟩

/-- Models `s.endsWith(t)`: the final characters of `s` are exactly `t`. -/
def endsWithStr (s t : String) : Bool :=
  decide (s.data.drop (s.data.length - t.data.length) = t.data)

/-- Splits a character list at every occurrence of the separator (the
charwise semantics of `String.prototype.split` with a one-character
separator, which Node's path functions build on). -/
def splitChar (sep : Char) : List Char → List (List Char)
  | [] => [[]]
  | c :: rest =>
      if c = sep then [] :: splitChar sep rest
      else
        match splitChar sep rest with
        | [] => [[c]]
        | h :: t => (c :: h) :: t

/-- Models the selection test `entry.name.toLowerCase().endsWith('.png')` of
line 79. -/
def isPngName (name : String) : Bool := endsWithStr (toLowerStr name) ".png"

mutual

/-- Loop body of `scanDirectory` (lines 74-82): a matching regular file
contributes its full path, a directory is scanned recursively. -/
def scanEntry (currentPath : String) : Entry → List String
  | .file name =>
      if isPngName name then [pathJoin currentPath name] else []
  | .dir name readable entries =>
      scanDir (pathJoin currentPath name) readable entries

/-- Models `scanDirectory` (lines 70-86): when `fs.readdir` succeeds the
entries are processed in order; when it throws, the catch block logs a warning
and the directory contributes nothing. -/
def scanDir (currentPath : String) (readable : Bool) (entries : List Entry) :
    List String :=
  if readable then scanList currentPath entries else []

/-- Sequential processing of a directory listing, accumulating pushed paths in
order (the `for` loop of lines 74-82). -/
def scanList (currentPath : String) : List Entry → List String
  | [] => []
  | e :: es => scanEntry currentPath e ++ scanList currentPath es

end

/-- Models `findPngFiles` (lines 67-90): scan the root directory and return
the accumulated list of PNG paths. -/
def findPngFiles (directoryPath : String) (rootReadable : Bool)
    (rootEntries : List Entry) : List String :=
  scanDir directoryPath rootReadable rootEntries

mutual

/-- Modelled from the spec (§4.1, §8): the full recursive listing of regular
files of one entry, as (full path, file name) pairs in traversal order,
ignoring readability.  Used only to compare discovery against the spec's
" N matching files, M others" phrasing. -/
def filesEntry (currentPath : String) : Entry → List (String × String)
  | .file name => [(pathJoin currentPath name, name)]
  | .dir name _ entries => filesList (pathJoin currentPath name) entries

/-- Modelled from the spec (§4.1, §8): recursive file listing of a directory
listing, in order. -/
def filesList (currentPath : String) : List Entry → List (String × String)
  | [] => []
  | e :: es => filesEntry currentPath e ++ filesList currentPath es

end

mutual

/-- True when every directory in this entry's subtree is readable. -/
def allReadableE : Entry → Bool
  | .file _ => true
  | .dir _ readable entries => readable && allReadableL entries

/-- True when every directory in the listing's subtrees is readable. -/
def allReadableL : List Entry → Bool
  | [] => true
  | e :: es => allReadableE e && allReadableL es

end

mutual

/-- Number of PNG-named regular files anywhere in the entry's subtree
(readable or not). -/
def countPngE : Entry → Nat
  | .file name => if isPngName name then 1 else 0
  | .dir _ _ entries => countPngL entries

/-- Number of PNG-named regular files anywhere below the listing. -/
def countPngL : List Entry → Nat
  | [] => 0
  | e :: es => countPngE e + countPngL es

end

/-- Models `path.basename` for the file paths this script builds (no trailing
separator): the final slash-separated component. -/
def baseName (p : String) : String :=
  ⟨(splitChar '/' p.data).getLastD p.data⟩

/-- Models `path.relative(directoryPath, filePath)` (line 106) for the paths
this script produces, which always have the form `directoryPath ++ "/" ++ rel`:
drop the root prefix and the separator. -/
def relativeTo (directoryPath filePath : String) : String :=
  ⟨filePath.data.drop (directoryPath.data.length + 1)⟩

/-- Models `path.extname`: the part of the basename from its last period to
the end; empty when the basename has no period or its only period is the
leading character of a dotfile. -/
def extname (p : String) : String :=
  let parts := splitChar '.' (baseName p).data
  if parts.length ≤ 1 then ""
  else if parts.length = 2 && parts.headD [] = [] then ""
  else ⟨'.' :: parts.getLastD []⟩

/-- An element of the `uploadResults` array built by `uploadDirectory`
(lines 110-123): a record with `success: true` carrying the URL, or with
`success: false` carrying the error message. -/
inductive UploadResult : Type where
  | ok (fileName relativePath url : String)
  | failed (fileName relativePath errorMessage : String)
deriving DecidableEq, Repr

/-- The `success` field of a result record. -/
def UploadResult.isSuccess : UploadResult → Bool
  | .ok .. => true
  | .failed .. => false

/-- Whether an `Except` computation succeeded (a JS call that did not throw). -/
def exceptOk {α : Type} : Except String α → Bool
  | .ok _ => true
  | .error _ => false

/-- Body of the upload loop of `uploadDirectory` (lines 104-126) for one file:
attempt the upload, record a success entry with the returned URL, or catch the
error and record a failure entry with its message.  The upload attempt itself
is abstracted as an oracle `upload : path → Except message url`. -/
def uploadOne (upload : String → Except String String)
    (directoryPath filePath : String) : UploadResult :=
  match upload filePath with
  | .ok url => .ok (baseName filePath) (relativeTo directoryPath filePath) url
  | .error msg =>
      .failed (baseName filePath) (relativeTo directoryPath filePath) msg

/-- The `for` loop of lines 104-126, pushing one result per file onto the
accumulator in order. -/
def uploadLoop (upload : String → Except String String)
    (directoryPath : String) : List String → List UploadResult → List UploadResult
  | [], acc => acc
  | filePath :: rest, acc =>
      uploadLoop upload directoryPath rest
        (acc ++ [uploadOne upload directoryPath filePath])

/-- Models `uploadDirectory` (lines 92-133): discover the PNG files, return
`[]` at once when none were found, otherwise run the upload loop over them. -/
def uploadDirectory (upload : String → Except String String)
    (directoryPath : String) (rootReadable : Bool) (rootEntries : List Entry) :
    List UploadResult :=
  let pngFiles := findPngFiles directoryPath rootReadable rootEntries
  if pngFiles.length = 0 then []
  else uploadLoop upload directoryPath pngFiles []

/-! Entry point (`main`, lines 136-188). -/

/-- JS truthiness of `process.env.X : string | undefined`: an unset variable
is `undefined` (falsy) and the empty string is also falsy. -/
def jsTruthy : Option String → Bool
  | none => false
  | some s => s ≠ ""

/-- Exit code contributed by the `uploadDirectory` call and the summary logic
of lines 158-182: a thrown error reaches the top-level catch (exit 1);
otherwise exit 1 exactly when the `failed` filter is non-empty. -/
def exitOfBatch : Except String (List UploadResult) → Nat
  | .error _ => 1
  | .ok results =>
      if 0 < (results.filter fun r => !r.isSuccess).length then 1 else 0

/-- Models the exit code of `main` (lines 136-188).  The credentials check of
line 141 is JS falsiness of either variable; `dirExists` models whether
`fs.access` on the screenshots path succeeds (line 151, exit 0 when not); the
batch argument stands for the `uploadDirectory` call, as an `Except` because
an unexpected exception there would be caught at line 184 (exit 1). -/
def mainExitCode (serviceDomain apiKey : Option String) (dirExists : Bool)
    (batch : Except String (List UploadResult)) : Nat :=
  if !jsTruthy serviceDomain || !jsTruthy apiKey then 1
  else if !dirExists then 0
  else exitOfBatch batch

/-- Observable outcome of one run of `main`: the exit code, whether
`findPngFiles` was ever invoked, and how many `uploadImage` calls were made
(the loop makes exactly one per discovered file). -/
structure MainOutcome : Type where
  exitCode : Nat
  scanInvoked : Bool
  uploadCalls : Nat
deriving DecidableEq, Repr

/-- Models a full run of `main` (lines 136-188) over a concrete filesystem
and upload oracle, recording the effects alongside the exit code. -/
def runMain (serviceDomain apiKey : Option String) (dirExists : Bool)
    (directoryPath : String) (rootReadable : Bool) (rootEntries : List Entry)
    (upload : String → Except String String) : MainOutcome :=
  if !jsTruthy serviceDomain || !jsTruthy apiKey then
    { exitCode := 1, scanInvoked := false, uploadCalls := 0 }
  else if !dirExists then
    { exitCode := 0, scanInvoked := false, uploadCalls := 0 }
  else
    let results := uploadDirectory upload directoryPath rootReadable rootEntries
    { exitCode := if 0 < (results.filter fun r => !r.isSuccess).length then 1 else 0
      scanInvoked := true
      uploadCalls := (findPngFiles directoryPath rootReadable rootEntries).length }

/-! Upload client (`uploadImage`, lines 13-65). -/

/-- Content-Type determination of lines 17-31: switch on the lowercased file
extension; an unrecognised extension throws `Unsupported file type`. -/
def contentTypeFor (filePath : String) : Except String String :=
  let fileExtension := toLowerStr (extname filePath)
  if fileExtension = ".png" then .ok "image/png"
  else if fileExtension = ".jpg" then .ok "image/jpeg"
  else if fileExtension = ".jpeg" then .ok "image/jpeg"
  else .error ("Unsupported file type: " ++ fileExtension)

/-- Models `fileBuffer.toString('binary')` (line 40): each byte becomes the
character with that code point. -/
def binToString (bytes : List Nat) : String :=
  ⟨bytes.map fun b => Char.ofNat b⟩

/-- Models `Buffer.from(s, 'binary')` (line 51): each character becomes its
code point reduced modulo 256. -/
def stringToBin (s : String) : List Nat :=
  s.data.map fun c => c.toNat % 256

/-- Models `Array.prototype.join('\r\n')` applied by line 42. -/
def joinCRLF : List String → String
  | [] => ""
  | [s] => s
  | s :: rest => s ++ "\r\n" ++ joinCRLF rest

/-- The hand-built multipart/form-data payload of lines 34-42 as a string. -/
def buildFormData (boundary fileName contentType : String)
    (fileBytes : List Nat) : String :=
  joinCRLF
    [ "--" ++ boundary
    , "Content-Disposition: form-data; name=\"file\"; filename=\"" ++
        fileName ++ "\""
    , "Content-Type: " ++ contentType
    , ""
    , binToString fileBytes
    , "--" ++ boundary ++ "--" ]

/-- The HTTP POST issued by `fetch` at lines 44-52: target URL, the
`X-MICROCMS-API-KEY` header, the `Content-Type` header with the boundary
parameter, the `Content-Length` header value, and the body bytes. -/
structure UploadRequest : Type where
  url : String
  apiKeyHeader : String
  contentTypeHeader : String
  contentLength : Nat
  body : List Nat
deriving DecidableEq, Repr

/-- A response of the HTTP layer: the status code and text, the body as text
(what `response.text()` yields at line 55), and the outcome of
`(await response.json()).url` (line 59-60) — an error when the body is not
JSON, otherwise the `url` field of the parsed body. -/
structure HttpResponse : Type where
  status : Nat
  statusText : String
  bodyText : String
  jsonUrl : Except String String
deriving Repr

/-- Models `response.ok` of the fetch API: status in the range 200-299. -/
def respOk (status : Nat) : Bool := decide (200 ≤ status) && decide (status ≤ 299)

/-- Response handling of lines 54-60: a non-2xx status throws an error built
from the status, status text and body text; otherwise the parsed body's `url`
field is returned (a parse failure propagates as the thrown error). -/
def handleResponse (resp : HttpResponse) : Except String String :=
  if !respOk resp.status then
    .error ("Upload failed: " ++ toString resp.status ++ " " ++
      resp.statusText ++ " - " ++ resp.bodyText)
  else resp.jsonUrl

/-- The request value built by lines 34-52 from the already-determined
content type.  The boundary is `'----formdata-boundary-' + Date.now()` with
the timestamp abstracted as a parameter; `Content-Length` is
`Buffer.byteLength(formData, 'binary')`, i.e. one byte per character. -/
def buildRequest (serviceDomain apiKey filePath : String)
    (fileBytes : List Nat) (timestamp : Nat) (contentType : String) :
    UploadRequest :=
  let fileName := baseName filePath
  let boundary := "----formdata-boundary-" ++ toString timestamp
  let formData := buildFormData boundary fileName contentType fileBytes
  { url := "https://" ++ serviceDomain ++ ".microcms-management.io" ++
      "/api/v1/media"
    apiKeyHeader := apiKey
    contentTypeHeader := "multipart/form-data; boundary=" ++ boundary
    contentLength := formData.length
    body := stringToBin formData }

/-- Models `uploadImage` (lines 13-65) with the file contents and the HTTP
layer supplied explicitly: determine the content type (an unsupported
extension throws before any request is made), build and send the request, and
handle the response.  The catch block of lines 61-64 logs and rethrows, so
every failure surfaces as the error value. -/
def uploadImage (serviceDomain apiKey filePath : String)
    (fileBytes : List Nat) (timestamp : Nat)
    (respond : UploadRequest → HttpResponse) : Except String String :=
  match contentTypeFor filePath with
  | .error e => .error e
  | .ok contentType =>
      handleResponse
        (respond (buildRequest serviceDomain apiKey filePath fileBytes
          timestamp contentType))

/-- A part of a multipart/form-data payload, as the spec's glossary describes
it: a named part with a filename, a content type and its content. -/
structure MultipartPart : Type where
  partName : String
  filename : String
  contentType : String
  content : String

/-- Modelled from the spec (glossary and §4.2): the serialization of a list of
multipart parts between boundary delimiters.  Used to state that the body the
client builds is a one-part payload naming the part `file`. -/
def renderPart (boundary : String) (p : MultipartPart) : String :=
  "--" ++ boundary ++ "\r\n" ++
  "Content-Disposition: form-data; name=\"" ++ p.partName ++
    "\"; filename=\"" ++ p.filename ++ "\"" ++ "\r\n" ++
  "Content-Type: " ++ p.contentType ++ "\r\n" ++
  "\r\n" ++ p.content

/-- Modelled from the spec (glossary and §4.2): a whole multipart payload is
the parts in order, each followed by a CRLF, closed by the final boundary. -/
def renderMultipart (boundary : String) (parts : List MultipartPart) : String :=
  String.join (parts.map fun p => renderPart boundary p ++ "\r\n") ++
    "--" ++ boundary ++ "--"

/-! Lemmas about discovery. -/

mutual

/-- On a subtree whose directories are all readable, the scan yields exactly
the full paths of the PNG-named files, in traversal order. -/
theorem scanEntry_eq_filter (p : String) (e : Entry)
    (h : allReadableE e = true) :
    scanEntry p e =
      ((filesEntry p e).filter fun x => isPngName x.2).map Prod.fst := by
  cases e with
  | file name =>
      cases hp : isPngName name <;>
        simp [scanEntry, filesEntry, List.filter, hp]
  | dir name readable entries =>
      have h' := (Bool.and_eq_true _ _).mp (by simpa [allReadableE] using h)
      simp only [scanEntry, filesEntry, scanDir, h'.1, if_true]
      exact scanList_eq_filter (pathJoin p name) entries h'.2

/-- List version of `scanEntry_eq_filter`. -/
theorem scanList_eq_filter (p : String) (es : List Entry)
    (h : allReadableL es = true) :
    scanList p es =
      ((filesList p es).filter fun x => isPngName x.2).map Prod.fst := by
  cases es with
  | nil => simp [scanList, filesList]
  | cons e rest =>
      have h' := (Bool.and_eq_true _ _).mp (by simpa [allReadableL] using h)
      simp only [scanList, filesList, List.filter_append, List.map_append]
      rw [scanEntry_eq_filter p e h'.1, scanList_eq_filter p rest h'.2]

end

mutual

/-- The PNG count of a subtree is the length of the filtered file listing. -/
theorem countPngE_eq_filter (p : String) (e : Entry) :
    countPngE e = ((filesEntry p e).filter fun x => isPngName x.2).length := by
  cases e with
  | file name =>
      cases hp : isPngName name <;>
        simp [countPngE, filesEntry, List.filter, hp]
  | dir name readable entries =>
      simp only [countPngE, filesEntry]
      exact countPngL_eq_filter (pathJoin p name) entries

/-- List version of `countPngE_eq_filter`. -/
theorem countPngL_eq_filter (p : String) (es : List Entry) :
    countPngL es = ((filesList p es).filter fun x => isPngName x.2).length := by
  cases es with
  | nil => simp [countPngL, filesList]
  | cons e rest =>
      simp only [countPngL, filesList, List.filter_append, List.length_append]
      rw [countPngE_eq_filter p e, countPngL_eq_filter p rest]

end

/-- Scanning a concatenated listing scans the two halves in order. -/
theorem scanList_append (p : String) (l1 l2 : List Entry) :
    scanList p (l1 ++ l2) = scanList p l1 ++ scanList p l2 := by
  induction l1 with
  | nil => simp [scanList]
  | cons e rest ih => simp [scanList, ih]

mutual

/-- A subtree containing no PNG-named file contributes nothing to the scan. -/
theorem scanEntry_eq_nil_of_no_png (p : String) (e : Entry)
    (h : countPngE e = 0) :
    scanEntry p e = [] := by
  cases e with
  | file name =>
      have hp : isPngName name = false := by
        cases hp : isPngName name
        · rfl
        · simp [countPngE, hp] at h
      simp [scanEntry, hp]
  | dir name readable entries =>
      have h' : countPngL entries = 0 := by simpa [countPngE] using h
      cases readable <;>
        simp [scanEntry, scanDir, scanList_eq_nil_of_no_png (pathJoin p name) entries h']

/-- List version of `scanEntry_eq_nil_of_no_png`. -/
theorem scanList_eq_nil_of_no_png (p : String) (es : List Entry)
    (h : countPngL es = 0) :
    scanList p es = [] := by
  cases es with
  | nil => simp [scanList]
  | cons e rest =>
      have h' : countPngE e = 0 ∧ countPngL rest = 0 := by
        simpa [countPngL, Nat.add_eq_zero] using h
      simp [scanList, scanEntry_eq_nil_of_no_png p e h'.1,
        scanList_eq_nil_of_no_png p rest h'.2]

end

/-- C3: on a directory tree whose directories are all readable, `findPngFiles`
returns exactly the full paths of the regular files whose lowercased name ends
in `.png` — in traversal order, with none of the other files — and the number
of returned paths equals the number of PNG-named files in the tree. -/
theorem findPngFiles_exact (directoryPath : String) (rootEntries : List Entry)
    (h : allReadableL rootEntries = true) :
    findPngFiles directoryPath true rootEntries =
      ((filesList directoryPath rootEntries).filter
          fun x => isPngName x.2).map Prod.fst ∧
    (findPngFiles directoryPath true rootEntries).length =
      countPngL rootEntries := by
  have he : findPngFiles directoryPath true rootEntries =
      ((filesList directoryPath rootEntries).filter
        fun x => isPngName x.2).map Prod.fst := by
    simpa [findPngFiles, scanDir] using
      scanList_eq_filter directoryPath rootEntries h
  refine ⟨he, ?_⟩
  rw [he, List.length_map, countPngL_eq_filter directoryPath rootEntries]

/-- Witness for C3 on a concrete tree: two PNG-named files (one in a
subdirectory, mixed letter case) are returned in order, two other files are
not. -/
theorem findPngFiles_exact_witness :
    findPngFiles "/r" true
        [Entry.file "a.PNG", Entry.file "b.txt",
         Entry.dir "sub" true [Entry.file "c.png", Entry.file "d.jpg"]] =
      ((filesList "/r"
          [Entry.file "a.PNG", Entry.file "b.txt",
           Entry.dir "sub" true [Entry.file "c.png", Entry.file "d.jpg"]]).filter
            fun x => isPngName x.2).map Prod.fst ∧
    (findPngFiles "/r" true
        [Entry.file "a.PNG", Entry.file "b.txt",
         Entry.dir "sub" true [Entry.file "c.png", Entry.file "d.jpg"]]).length =
      countPngL
        [Entry.file "a.PNG", Entry.file "b.txt",
         Entry.dir "sub" true [Entry.file "c.png", Entry.file "d.jpg"]] :=
  findPngFiles_exact "/r" _ (by simp [allReadableL, allReadableE])

/-- C8: discovery swallows directory read failures instead of propagating
them: an unreadable directory anywhere in a listing contributes nothing and
the scan of the remaining (sibling) entries proceeds exactly as if the failed
directory were not there; and a root whose tree contains no PNG-named file
yields the empty list rather than an error. -/
theorem scan_skips_unreadable (p name : String) (ds pre post es : List Entry) :
    scanList p (pre ++ Entry.dir name false ds :: post) =
      scanList p pre ++ scanList p post ∧
    (countPngL es = 0 → findPngFiles p true es = []) := by
  constructor
  · rw [scanList_append]
    simp [scanList, scanEntry, scanDir]
  · intro h
    simpa [findPngFiles, scanDir] using scanList_eq_nil_of_no_png p es h

/-- Witness for C8: an unreadable directory full of PNGs is skipped while its
siblings are still scanned, and a PNG-free root scans to the empty list. -/
theorem scan_skips_unreadable_witness :
    scanList "/r" ([Entry.file "a.png"] ++
        Entry.dir "locked" false [Entry.file "hidden.png"] ::
          [Entry.file "b.png"]) =
      scanList "/r" [Entry.file "a.png"] ++ scanList "/r" [Entry.file "b.png"] ∧
    findPngFiles "/r" true [Entry.file "readme.md", Entry.dir "sub" true []] =
      [] := by
  refine ⟨(scan_skips_unreadable "/r" "locked" [Entry.file "hidden.png"]
    [Entry.file "a.png"] [Entry.file "b.png"] []).1, ?_⟩
  exact (scan_skips_unreadable "/r" "x" [] [] []
    [Entry.file "readme.md", Entry.dir "sub" true []]).2
    (by simp only [countPngL, countPngE]; decide)

/-! Batch runner. -/

/-- The upload loop pushes one result per file, in order, onto the
accumulator. -/
theorem uploadLoop_eq_map (upload : String → Except String String)
    (directoryPath : String) (files : List String)
    (acc : List UploadResult) :
    uploadLoop upload directoryPath files acc =
      acc ++ files.map (uploadOne upload directoryPath) := by
  induction files generalizing acc with
  | nil => simp [uploadLoop]
  | cons f rest ih => simp [uploadLoop, ih]

/-- C1: the batch result has exactly one entry per discovered PNG file — the
entry for the i-th discovered file is the i-th result, so none are dropped or
duplicated, results follow discovery order, and each file's entry depends only
on that file's own upload outcome (so one failure never prevents the
remaining attempts); an entry is a success record exactly when that upload
returned a URL. -/
theorem uploadDirectory_one_result_per_file
    (upload : String → Except String String) (directoryPath : String)
    (rootReadable : Bool) (rootEntries : List Entry) :
    uploadDirectory upload directoryPath rootReadable rootEntries =
      (findPngFiles directoryPath rootReadable rootEntries).map
        (uploadOne upload directoryPath) ∧
    (uploadDirectory upload directoryPath rootReadable rootEntries).length =
      (findPngFiles directoryPath rootReadable rootEntries).length ∧
    ∀ filePath, (uploadOne upload directoryPath filePath).isSuccess =
      exceptOk (upload filePath) := by
  refine ⟨?_, ?_, ?_⟩
  · by_cases h : (findPngFiles directoryPath rootReadable rootEntries).length = 0
    · rw [List.length_eq_zero] at h
      simp [uploadDirectory, h]
    · simp [uploadDirectory, h, uploadLoop_eq_map]
  · by_cases h : (findPngFiles directoryPath rootReadable rootEntries).length = 0
    · rw [List.length_eq_zero] at h
      simp [uploadDirectory, h]
    · simp [uploadDirectory, h, uploadLoop_eq_map]
  · intro filePath
    cases hu : upload filePath <;>
      simp [uploadOne, hu, UploadResult.isSuccess, exceptOk]

/-! Entry point. -/

/-- C2: the process exit code is 0 exactly when the credentials are present
(in the JS-truthy sense) and either the directory is absent or every upload
succeeded; it is 1 exactly otherwise, i.e. when credentials are missing, the
batch threw an unexpected error, or at least one upload failed. -/
theorem mainExitCode_iff (serviceDomain apiKey : Option String)
    (dirExists : Bool) (batch : Except String (List UploadResult)) :
    (mainExitCode serviceDomain apiKey dirExists batch = 0 ↔
      (jsTruthy serviceDomain = true ∧ jsTruthy apiKey = true ∧
        (dirExists = false ∨
          ∃ rs, batch = Except.ok rs ∧ ∀ r ∈ rs, r.isSuccess = true))) ∧
    (mainExitCode serviceDomain apiKey dirExists batch = 1 ↔
      ¬(jsTruthy serviceDomain = true ∧ jsTruthy apiKey = true ∧
        (dirExists = false ∨
          ∃ rs, batch = Except.ok rs ∧ ∀ r ∈ rs, r.isSuccess = true))) := by
  have h01 : mainExitCode serviceDomain apiKey dirExists batch = 0 ∨
      mainExitCode serviceDomain apiKey dirExists batch = 1 := by
    unfold mainExitCode exitOfBatch
    split
    · exact Or.inr rfl
    · split
      · exact Or.inl rfl
      · split
        · exact Or.inr rfl
        · split
          · exact Or.inr rfl
          · exact Or.inl rfl
  have h0 : mainExitCode serviceDomain apiKey dirExists batch = 0 ↔
      (jsTruthy serviceDomain = true ∧ jsTruthy apiKey = true ∧
        (dirExists = false ∨
          ∃ rs, batch = Except.ok rs ∧ ∀ r ∈ rs, r.isSuccess = true)) := by
    cases hsd : jsTruthy serviceDomain with
    | false => simp [mainExitCode, hsd]
    | true =>
      cases hak : jsTruthy apiKey with
      | false => simp [mainExitCode, hsd, hak]
      | true =>
        cases dirExists with
        | false => simp [mainExitCode, hsd, hak]
        | true =>
          cases batch with
          | error e => simp [mainExitCode, exitOfBatch, hsd, hak]
          | ok rs =>
            have hfilter : ((rs.filter fun r => !r.isSuccess).length = 0) ↔
                (∀ r ∈ rs, r.isSuccess = true) := by
              rw [List.length_eq_zero, List.filter_eq_nil_iff]
              constructor
              · intro hh r hr
                cases hs : r.isSuccess
                · exact absurd (by simp [hs]) (hh r hr)
                · rfl
              · intro hh r hr
                simp [hh r hr]
            by_cases hz : (rs.filter fun r => !r.isSuccess).length = 0
            · have hall := hfilter.mp hz
              simp [mainExitCode, exitOfBatch, hsd, hak, hz]
              exact hall
            · have hpos : 0 < (rs.filter fun r => !r.isSuccess).length :=
                Nat.pos_of_ne_zero hz
              have hnall : ¬(∀ r ∈ rs, r.isSuccess = true) := fun hall =>
                hz (hfilter.mpr hall)
              simp [mainExitCode, exitOfBatch, hsd, hak, hpos, hnall]
  refine ⟨h0, ?_⟩
  constructor
  · intro h1 hgood
    have h00 := h0.mpr hgood
    rw [h00] at h1
    exact absurd h1 (by decide)
  · intro hgood
    rcases h01 with h | h
    · exact absurd (h0.mp h) hgood
    · exact h

/-- C5: when either credential is missing (JS-falsy), the run exits with code
1, never invokes the directory scan and makes no upload (network) call. -/
theorem missing_credentials_early_exit (serviceDomain apiKey : Option String)
    (dirExists : Bool) (directoryPath : String) (rootReadable : Bool)
    (rootEntries : List Entry) (upload : String → Except String String)
    (h : jsTruthy serviceDomain = false ∨ jsTruthy apiKey = false) :
    runMain serviceDomain apiKey dirExists directoryPath rootReadable
        rootEntries upload =
      { exitCode := 1, scanInvoked := false, uploadCalls := 0 } := by
  rcases h with h | h <;> simp [runMain, h]

/-- Witness for C5: with the service domain unset and an API key present,
the run exits 1 with no scan and no uploads. -/
theorem missing_credentials_early_exit_witness :
    runMain none (some "key") true "/tmp/playwright-mcp-output" true
        [Entry.file "a.png"] (fun _ => Except.ok "https://cdn/u.png") =
      { exitCode := 1, scanInvoked := false, uploadCalls := 0 } :=
  missing_credentials_early_exit none (some "key") true
    "/tmp/playwright-mcp-output" true [Entry.file "a.png"]
    (fun _ => Except.ok "https://cdn/u.png") (Or.inl rfl)

/-- C9: a credential set to the empty string is treated exactly like an
absent one — the run behaves identically to the unset case and exits 1 with
no scan and no upload, because the check is JS falsiness of the value. -/
theorem empty_credential_like_absent (serviceDomain apiKey : Option String)
    (dirExists : Bool) (directoryPath : String) (rootReadable : Bool)
    (rootEntries : List Entry) (upload : String → Except String String) :
    (runMain (some "") apiKey dirExists directoryPath rootReadable rootEntries
        upload =
      runMain none apiKey dirExists directoryPath rootReadable rootEntries
        upload) ∧
    (runMain serviceDomain (some "") dirExists directoryPath rootReadable
        rootEntries upload =
      runMain serviceDomain none dirExists directoryPath rootReadable
        rootEntries upload) ∧
    (runMain (some "") apiKey dirExists directoryPath rootReadable rootEntries
        upload =
      { exitCode := 1, scanInvoked := false, uploadCalls := 0 }) ∧
    (runMain serviceDomain (some "") dirExists directoryPath rootReadable
        rootEntries upload =
      { exitCode := 1, scanInvoked := false, uploadCalls := 0 }) := by
  have h : jsTruthy (some "") = false := rfl
  have h2 : jsTruthy none = false := rfl
  refine ⟨?_, ?_, ?_, ?_⟩ <;> simp [runMain, h, h2]

/-! Upload client lemmas. -/

/-- The hand-built payload splits around the interpolated pieces. -/
theorem buildFormData_decomp (boundary fileName ct : String)
    (bytes : List Nat) :
    buildFormData boundary fileName ct bytes =
      "--" ++ boundary ++
      "\r\nContent-Disposition: form-data; name=\"file\"; filename=\"" ++
      fileName ++ "\"\r\nContent-Type: " ++ ct ++ "\r\n\r\n" ++
      binToString bytes ++ "\r\n--" ++ boundary ++ "--" := by
  apply String.ext
  simp only [buildFormData, joinCRLF, String.data_append, List.append_assoc]
  rfl

/-- Binary decoding distributes over string concatenation. -/
theorem stringToBin_append (s t : String) :
    stringToBin (s ++ t) = stringToBin s ++ stringToBin t := by
  simp only [stringToBin, String.data_append, List.map_append]

/-- Binary decoding yields one byte per character. -/
theorem stringToBin_length (s : String) :
    (stringToBin s).length = s.length := by
  simp only [stringToBin, String.length, List.length_map]

/-- A byte below 256 survives the latin1 decode/encode round trip. -/
theorem char_byte_roundtrip (b : Nat) (hb : b < 256) :
    (Char.ofNat b).toNat % 256 = b := by
  have hv : b.isValidChar := Or.inl (by omega)
  rw [Char.ofNat, dif_pos hv]
  have : (Char.ofNatAux b hv).toNat = b := rfl
  rw [this]
  omega

/-- A byte list with all entries below 256 survives the latin1 round trip. -/
theorem stringToBin_binToString (bytes : List Nat)
    (h : ∀ b ∈ bytes, b < 256) :
    stringToBin (binToString bytes) = bytes := by
  induction bytes with
  | nil => rfl
  | cons b rest ih =>
      have hb : b < 256 := h b (by simp)
      have hr := ih fun x hx => h x (by simp [hx])
      simp only [stringToBin, binToString, List.map_cons] at hr ⊢
      rw [char_byte_roundtrip b hb]
      exact congrArg (b :: ·) hr

/-- C4: on a non-2xx response the upload fails with an error message that
carries the HTTP status code and the response body text; on a 2xx response it
returns the `url` field of the JSON-parsed body; and for any file whose
content type was determined, `uploadImage` is exactly this response handling
applied to the HTTP layer's answer to the built request. -/
theorem uploadImage_response_cases (resp : HttpResponse) :
    ((resp.status < 200 ∨ 299 < resp.status) →
      handleResponse resp =
        Except.error ("Upload failed: " ++ toString resp.status ++ " " ++
          resp.statusText ++ " - " ++ resp.bodyText) ∧
      (∃ a b, handleResponse resp =
        Except.error (a ++ toString resp.status ++ b)) ∧
      (∃ c d, handleResponse resp = Except.error (c ++ resp.bodyText ++ d))) ∧
    ((200 ≤ resp.status ∧ resp.status ≤ 299) →
      handleResponse resp = resp.jsonUrl) ∧
    (∀ (serviceDomain apiKey filePath : String) (fileBytes : List Nat)
        (timestamp : Nat) (respond : UploadRequest → HttpResponse)
        (ct : String), contentTypeFor filePath = Except.ok ct →
      uploadImage serviceDomain apiKey filePath fileBytes timestamp respond =
        handleResponse
          (respond (buildRequest serviceDomain apiKey filePath fileBytes
            timestamp ct))) := by
  refine ⟨?_, ?_, ?_⟩
  · intro h
    have hok : respOk resp.status = false := by
      simp only [respOk, Bool.and_eq_false_iff, decide_eq_false_iff_not]
      omega
    refine ⟨by simp [handleResponse, hok], ?_, ?_⟩
    · refine ⟨"Upload failed: ",
        " " ++ resp.statusText ++ " - " ++ resp.bodyText, ?_⟩
      simp only [handleResponse, hok, Bool.not_false, if_true]
      congr 1
      apply String.ext
      simp only [String.data_append, List.append_assoc]
    · refine ⟨"Upload failed: " ++ toString resp.status ++ " " ++
        resp.statusText ++ " - ", "", ?_⟩
      simp only [handleResponse, hok, Bool.not_false, if_true]
      congr 1
      apply String.ext
      simp only [String.data_append, List.append_assoc, List.append_nil]
  · intro h
    have hok : respOk resp.status = true := by
      simp only [respOk, Bool.and_eq_true, decide_eq_true_eq]
      omega
    simp [handleResponse, hok]
  · intro serviceDomain apiKey filePath fileBytes timestamp respond ct h
    simp [uploadImage, h]

/-- Witness for C4: a 500 response fails with the status and body in the
message, a 200 response returns the parsed `url`, and `uploadImage` on a PNG
path is the handler applied to the oracle's response. -/
theorem uploadImage_response_cases_witness :
    (handleResponse
        { status := 500, statusText := "Internal Server Error",
          bodyText := "boom", jsonUrl := Except.error "not json" } =
      Except.error ("Upload failed: " ++ toString 500 ++ " " ++
        "Internal Server Error" ++ " - " ++ "boom")) ∧
    (handleResponse
        { status := 200, statusText := "OK", bodyText := "{}",
          jsonUrl := Except.ok "https://x/y.png" } =
      Except.ok "https://x/y.png") ∧
    (uploadImage "dom" "key" "/r/shot.png" [137, 80] 7
        (fun _ => { status := 200, statusText := "OK", bodyText := "{}",
                    jsonUrl := Except.ok "https://x/y.png" }) =
      handleResponse
        ((fun _ => { status := 200, statusText := "OK", bodyText := "{}",
                     jsonUrl := Except.ok "https://x/y.png" } :
            UploadRequest → HttpResponse)
          (buildRequest "dom" "key" "/r/shot.png" [137, 80] 7 "image/png"))) :=
  ⟨((uploadImage_response_cases
      { status := 500, statusText := "Internal Server Error",
        bodyText := "boom", jsonUrl := Except.error "not json" }).1
      (by decide)).1,
   (uploadImage_response_cases
      { status := 200, statusText := "OK", bodyText := "{}",
        jsonUrl := Except.ok "https://x/y.png" }).2.1 (by decide),
   (uploadImage_response_cases
      { status := 200, statusText := "OK", bodyText := "{}",
        jsonUrl := Except.ok "https://x/y.png" }).2.2 "dom" "key" "/r/shot.png"
      [137, 80] 7 _ "image/png" (by decide)⟩

/-- C6: the content type is determined by the lowercased file extension —
`.png` yields `image/png`, `.jpg` and `.jpeg` yield `image/jpeg`, and any
other extension makes `uploadImage` fail with an `Unsupported file type`
error whose result does not depend on the HTTP layer at all (no request is
issued). -/
theorem contentType_mapping (filePath : String) :
    (toLowerStr (extname filePath) = ".png" →
      contentTypeFor filePath = Except.ok "image/png") ∧
    ((toLowerStr (extname filePath) = ".jpg" ∨
        toLowerStr (extname filePath) = ".jpeg") →
      contentTypeFor filePath = Except.ok "image/jpeg") ∧
    (toLowerStr (extname filePath) ≠ ".png" →
      toLowerStr (extname filePath) ≠ ".jpg" →
      toLowerStr (extname filePath) ≠ ".jpeg" →
      ∀ (serviceDomain apiKey : String) (fileBytes : List Nat)
        (timestamp : Nat) (respond : UploadRequest → HttpResponse),
        uploadImage serviceDomain apiKey filePath fileBytes timestamp
            respond =
          Except.error
            ("Unsupported file type: " ++ toLowerStr (extname filePath))) := by
  refine ⟨?_, ?_, ?_⟩
  · intro h
    simp [contentTypeFor, h]
  · rintro (h | h) <;> simp [contentTypeFor, h]
  · intro h1 h2 h3 serviceDomain apiKey fileBytes timestamp respond
    simp [uploadImage, contentTypeFor, h1, h2, h3]

/-- Witness for C6: the three supported extensions map to their content
types (case-insensitively) and a `.pdf` file fails without any request. -/
theorem contentType_mapping_witness :
    (contentTypeFor "shot.PNG" = Except.ok "image/png") ∧
    (contentTypeFor "pic.JPG" = Except.ok "image/jpeg") ∧
    (contentTypeFor "pic.jpeg" = Except.ok "image/jpeg") ∧
    (uploadImage "dom" "key" "doc.pdf" [1] 0
        (fun _ => { status := 200, statusText := "OK", bodyText := "{}",
                    jsonUrl := Except.ok "u" }) =
      Except.error ("Unsupported file type: " ++ toLowerStr (extname "doc.pdf"))) :=
  ⟨(contentType_mapping "shot.PNG").1 (by decide),
   (contentType_mapping "pic.JPG").2.1 (Or.inl (by decide)),
   (contentType_mapping "pic.jpeg").2.1 (Or.inr (by decide)),
   (contentType_mapping "doc.pdf").2.2 (by decide) (by decide) (by decide)
     "dom" "key" [1] 0 _⟩

/-- C7: for a file whose content type resolves to `image/png`, the multipart
payload the client builds is exactly a one-part multipart body whose single
part is named `file`, carries the original file's basename as `filename` and
declares `Content-Type: image/png`; the built payload contains the literal
`Content-Type: image/png` line and the `filename="<basename>"` attribute, and
the bytes `uploadImage` sends are the binary encoding of this payload. -/
theorem multipart_single_part (serviceDomain apiKey filePath : String)
    (fileBytes : List Nat) (timestamp : Nat)
    (_h : contentTypeFor filePath = Except.ok "image/png") :
    (buildFormData ("----formdata-boundary-" ++ toString timestamp)
        (baseName filePath) "image/png" fileBytes =
      renderMultipart ("----formdata-boundary-" ++ toString timestamp)
        [{ partName := "file", filename := baseName filePath,
           contentType := "image/png",
           content := binToString fileBytes }]) ∧
    (∃ a b, buildFormData ("----formdata-boundary-" ++ toString timestamp)
        (baseName filePath) "image/png" fileBytes =
      a ++ "Content-Type: image/png" ++ b) ∧
    (∃ a b, buildFormData ("----formdata-boundary-" ++ toString timestamp)
        (baseName filePath) "image/png" fileBytes =
      a ++ ("filename=\"" ++ baseName filePath ++ "\"") ++ b) ∧
    ((buildRequest serviceDomain apiKey filePath fileBytes timestamp
        "image/png").body =
      stringToBin (buildFormData ("----formdata-boundary-" ++ toString timestamp)
        (baseName filePath) "image/png" fileBytes)) := by
  refine ⟨?_, ?_, ?_, rfl⟩
  · apply String.ext
    simp only [buildFormData, joinCRLF, renderMultipart, renderPart, List.map,
      String.join, List.foldl, String.data_append, List.append_assoc]
    rfl
  · refine ⟨"--" ++ ("----formdata-boundary-" ++ toString timestamp) ++
      "\r\nContent-Disposition: form-data; name=\"file\"; filename=\"" ++
      baseName filePath ++ "\"\r\n",
      "\r\n\r\n" ++ binToString fileBytes ++ "\r\n--" ++
      ("----formdata-boundary-" ++ toString timestamp) ++ "--", ?_⟩
    apply String.ext
    simp only [buildFormData, joinCRLF, String.data_append, List.append_assoc]
    rfl
  · refine ⟨"--" ++ ("----formdata-boundary-" ++ toString timestamp) ++
      "\r\nContent-Disposition: form-data; name=\"file\"; ",
      "\r\nContent-Type: image/png\r\n\r\n" ++ binToString fileBytes ++
      "\r\n--" ++ ("----formdata-boundary-" ++ toString timestamp) ++ "--", ?_⟩
    apply String.ext
    simp only [buildFormData, joinCRLF, String.data_append, List.append_assoc]
    rfl

/-- Witness for C7 at a concrete PNG upload. -/
theorem multipart_single_part_witness :
    (buildFormData ("----formdata-boundary-" ++ toString 7)
        (baseName "/r/shot.png") "image/png" [137, 80] =
      renderMultipart ("----formdata-boundary-" ++ toString 7)
        [{ partName := "file", filename := baseName "/r/shot.png",
           contentType := "image/png", content := binToString [137, 80] }]) ∧
    (∃ a b, buildFormData ("----formdata-boundary-" ++ toString 7)
        (baseName "/r/shot.png") "image/png" [137, 80] =
      a ++ "Content-Type: image/png" ++ b) ∧
    (∃ a b, buildFormData ("----formdata-boundary-" ++ toString 7)
        (baseName "/r/shot.png") "image/png" [137, 80] =
      a ++ ("filename=\"" ++ baseName "/r/shot.png" ++ "\"") ++ b) ∧
    ((buildRequest "dom" "key" "/r/shot.png" [137, 80] 7 "image/png").body =
      stringToBin (buildFormData ("----formdata-boundary-" ++ toString 7)
        (baseName "/r/shot.png") "image/png" [137, 80])) :=
  multipart_single_part "dom" "key" "/r/shot.png" [137, 80] 7 (by decide)

/-- C10: for every file buffer, the `Content-Length` header value equals the
byte length of the transmitted body; decoding a buffer to a binary string and
re-encoding it reproduces the byte sequence exactly; and consequently the
body contains the original file bytes unchanged as a contiguous section. -/
theorem content_length_exact (serviceDomain apiKey filePath : String)
    (fileBytes : List Nat) (timestamp : Nat) (contentType : String)
    (h : ∀ b ∈ fileBytes, b < 256) :
    ((buildRequest serviceDomain apiKey filePath fileBytes timestamp
        contentType).contentLength =
      (buildRequest serviceDomain apiKey filePath fileBytes timestamp
        contentType).body.length) ∧
    (stringToBin (binToString fileBytes) = fileBytes) ∧
    (∃ pre post, (buildRequest serviceDomain apiKey filePath fileBytes
        timestamp contentType).body = pre ++ fileBytes ++ post) := by
  refine ⟨?_, stringToBin_binToString fileBytes h, ?_⟩
  · show (buildFormData ("----formdata-boundary-" ++ toString timestamp)
        (baseName filePath) contentType fileBytes).length =
      (stringToBin (buildFormData ("----formdata-boundary-" ++
        toString timestamp) (baseName filePath) contentType fileBytes)).length
    rw [stringToBin_length]
  · have hsplit : buildFormData ("----formdata-boundary-" ++ toString timestamp)
        (baseName filePath) contentType fileBytes =
        ("--" ++ ("----formdata-boundary-" ++ toString timestamp) ++
          "\r\nContent-Disposition: form-data; name=\"file\"; filename=\"" ++
          baseName filePath ++ "\"\r\nContent-Type: " ++ contentType ++
          "\r\n\r\n") ++
        binToString fileBytes ++
        ("\r\n--" ++ ("----formdata-boundary-" ++ toString timestamp) ++
          "--") := by
      apply String.ext
      simp only [buildFormData, joinCRLF, String.data_append, List.append_assoc]
      rfl
    refine ⟨stringToBin ("--" ++ ("----formdata-boundary-" ++
        toString timestamp) ++
        "\r\nContent-Disposition: form-data; name=\"file\"; filename=\"" ++
        baseName filePath ++ "\"\r\nContent-Type: " ++ contentType ++
        "\r\n\r\n"),
      stringToBin ("\r\n--" ++ ("----formdata-boundary-" ++
        toString timestamp) ++ "--"), ?_⟩
    show stringToBin (buildFormData ("----formdata-boundary-" ++
        toString timestamp) (baseName filePath) contentType fileBytes) = _
    rw [hsplit, stringToBin_append, stringToBin_append,
      stringToBin_binToString fileBytes h]

/-- Witness for C10 on a concrete buffer spanning the byte range. -/
theorem content_length_exact_witness :
    ((buildRequest "dom" "key" "/r/shot.png" [0, 200, 255] 7
        "image/png").contentLength =
      (buildRequest "dom" "key" "/r/shot.png" [0, 200, 255] 7
        "image/png").body.length) ∧
    (stringToBin (binToString [0, 200, 255]) = [0, 200, 255]) ∧
    (∃ pre post, (buildRequest "dom" "key" "/r/shot.png" [0, 200, 255] 7
        "image/png").body = pre ++ [0, 200, 255] ++ post) :=
  content_length_exact "dom" "key" "/r/shot.png" [0, 200, 255] 7 "image/png"
    (by decide)

end Upload
